import Mathlib

/-!
# Dashboard poller (`dashboard/static/js/app.js`)

A shallow embedding of the browser script that polls `/api/events`,
`/api/stats` and `/api/org-stats` and writes the rendered markup into six
fixed DOM regions, followed by the properties proved about it.

Modelling conventions.

* JavaScript strings are Lean strings (sequences of Unicode code points);
  template literals are spelled out line by line, with the source's
  indentation, and `.join('')` is `String.join`.
* What the ambient runtime supplies and the script does not define (the
  locale-dependent date text, the Unicode case table outside ASCII, the
  printing of Numbers outside the safe-integer range) is a field of
  `Runtime`; every theorem holds for every runtime.
* A promise chain `fetch(..).then(..).then(..).catch(..)` is a function of
  the outcome of the request; its callbacks run only when the request
  settles, which is a separate step (`deliver`) from the synchronous call
  that issued it.
-/

namespace Dashboard

/-! ## The ambient runtime -/

/-- The `timestamp` field of an event: a numeric epoch value or a date string. -/
inductive Timestamp where
  | epoch (ms : Int)
  | text (s : String)
deriving DecidableEq, Repr

/-- What the browser supplies. `localeDateText t` is
`new Date(t).toLocaleString()`; `unicodeLower before c after` is the lower
casing by `String.prototype.toLowerCase` of a non-ASCII code point `c` standing
between `before` and `after`; `bigNumberText n` is `String(n)` for an
integer-valued Number outside the safe-integer range. -/
structure Runtime where
  localeDateText : Timestamp → String
  unicodeLower : List Char → Char → List Char → List Char
  bigNumberText : Int → String

/-- A runtime used to evaluate the definitions on concrete inputs. -/
def Runtime.sample : Runtime where
  localeDateText := fun t =>
    match t with
    | .epoch ms => "T" ++ toString ms
    | .text s => s
  unicodeLower := fun _ c _ => [c]
  bigNumberText := fun n => toString n

/-- The value of `Number.MAX_SAFE_INTEGER`, `2^53 - 1`. -/
def maxSafeInteger : Nat := 9007199254740991

/-- The text that a template literal or `textContent` gives an integer-valued
Number: its decimal digits (with a leading `-` when negative) for a safe
integer. -/
def numberToString (rt : Runtime) (n : Int) : String :=
  if n.natAbs ≤ maxSafeInteger then toString n else rt.bigNumberText n

/-! ## `formatTime` -/

/-- Source lines 1-4: `new Date(timestamp).toLocaleString()`. -/
def formatTime (rt : Runtime) (timestamp : Timestamp) : String :=
  rt.localeDateText timestamp

/-! ## Org-name slugging (source line 31) -/

/-- The character class `[a-z0-9]`. -/
def isSlugChar (c : Char) : Bool :=
  (97 ≤ c.toNat && c.toNat ≤ 122) || (48 ≤ c.toNat && c.toNat ≤ 57)

/-- Lower casing of one code point in its context: ASCII code points by the
ASCII rule, the others by the runtime's Unicode table. -/
def lowerCodePoint (rt : Runtime) (before : List Char) (c : Char) (after : List Char) :
    List Char :=
  if c.toNat < 128 then [c.toLower] else rt.unicodeLower before c after

/-- Lower casing of the code points `cs` that follow `before`. -/
def lowerFrom (rt : Runtime) : List Char → List Char → List Char
  | _, [] => []
  | before, c :: after =>
    lowerCodePoint rt before c after ++ lowerFrom rt (before ++ [c]) after

/-- The method call `s.toLowerCase()`. -/
def toLowerCase (rt : Runtime) (s : String) : String :=
  ⟨lowerFrom rt [] s.data⟩

/-- The call `s.replace(/[^a-z0-9]/g, '')`: every character outside `[a-z0-9]`
is removed. -/
def removeNonSlugChars (s : String) : String :=
  ⟨s.data.filter isSlugChar⟩

/-- The expression `org.toLowerCase().replace(/[^a-z0-9]/g, '')`. -/
def slug (rt : Runtime) (org : String) : String :=
  removeNonSlugChars (toLowerCase rt org)

/-- An ASCII letter or digit. -/
def isAsciiAlnum (c : Char) : Bool :=
  (97 ≤ c.toNat && c.toNat ≤ 122) || (65 ≤ c.toNat && c.toNat ≤ 90) ||
    (48 ≤ c.toNat && c.toNat ≤ 57)

/-! ## Data model -/

/-- The body of `/api/stats`. -/
structure StatsSummary where
  total : Int
  spoofing : Int
  new_devices : Int
  «matches» : Int
deriving DecidableEq, Repr

/-- A valid summary: its four fields are safe integers. -/
def StatsSummary.valid (s : StatsSummary) : Prop :=
  s.total.natAbs ≤ maxSafeInteger ∧ s.spoofing.natAbs ≤ maxSafeInteger ∧
    s.new_devices.natAbs ≤ maxSafeInteger ∧ s.«matches».natAbs ≤ maxSafeInteger

instance (s : StatsSummary) : Decidable s.valid := by
  unfold StatsSummary.valid
  infer_instance

/-- The body of `/api/org-stats`, as the list `Object.entries` gives: one pair of
organization name and report count per own key of the object, in the object's
entry order. -/
abbrev OrgStats := List (String × Int)

/-- One element of the body of `/api/events`. An absent (or null) optional
field is `none`. -/
structure NetworkEvent where
  eventType : String
  timestamp : Timestamp
  ipAddress : String
  macAddress : String
  previousMAC : Option String
  recordedBy : String
  hostname : Option String
  message : String
deriving DecidableEq, Repr

/-- Truthiness of an optional string field: absent and the empty string are
falsy. -/
def truthy : Option String → Bool
  | none => false
  | some s => s != ""

/-- The text a template literal gives an optional string field that is
present. -/
def fieldText : Option String → String
  | none => "undefined"
  | some s => s

/-! ## Markup -/

/-- Source line 25. -/
def orgPlaceholder : String := "<div class=\"no-events\">No data yet...</div>"

/-- Source line 47. -/
def eventsPlaceholder : String :=
  "<div class=\"no-events\">No events yet. Waiting for ARP traffic...</div>"

/-- The template literal of source lines 30-35, for one entry. -/
def orgCard (rt : Runtime) (entry : String × Int) : String :=
  "\n" ++
  "                <div class=\"org-stat-card org-" ++ slug rt entry.1 ++ "\">\n" ++
  "                    <div class=\"org-name\">" ++ entry.1 ++ "</div>\n" ++
  "                    <div class=\"org-count\">" ++ numberToString rt entry.2 ++
    " reports</div>\n" ++
  "                </div>\n" ++
  "            "

/-- The value assigned to `container.innerHTML` by the callback of source
lines 21-36. -/
def orgStatsMarkup (rt : Runtime) (orgStats : OrgStats) : String :=
  if (orgStats.map Prod.fst).length = 0 then orgPlaceholder
  else String.join (orgStats.map (orgCard rt))

/-- The inner template literal of source lines 64-68. -/
def previousMACBlock (event : NetworkEvent) : String :=
  if truthy event.previousMAC then
    "\n" ++
    "                                <div class=\"event-detail\">\n" ++
    "                                    <strong>Previous MAC:</strong> " ++
      fieldText event.previousMAC ++ "\n" ++
    "                                </div>\n" ++
    "                                "
  else ""

/-- The inner template literal of source lines 72-76. -/
def hostnameBlock (event : NetworkEvent) : String :=
  if truthy event.hostname then
    "\n" ++
    "                                <div class=\"event-detail\">\n" ++
    "                                    <strong>Hostname:</strong> " ++
      fieldText event.hostname ++ "\n" ++
    "                                </div>\n" ++
    "                                "
  else ""

/-- The template literal of source lines 51-80, for one event. -/
def eventBlock (rt : Runtime) (event : NetworkEvent) : String :=
  "\n" ++
  "                        <div class=\"event " ++ event.eventType ++ "\">\n" ++
  "                            <div class=\"event-header\">\n" ++
  "                                <span class=\"event-type " ++ event.eventType ++ "\">" ++
    event.eventType ++ "</span>\n" ++
  "                                <span class=\"event-time\">" ++
    formatTime rt event.timestamp ++ "</span>\n" ++
  "                            </div>\n" ++
  "                            <div class=\"event-details\">\n" ++
  "                                <div class=\"event-detail\">\n" ++
  "                                    <strong>IP:</strong> " ++ event.ipAddress ++ "\n" ++
  "                                </div>\n" ++
  "                                <div class=\"event-detail\">\n" ++
  "                                    <strong>MAC:</strong> " ++ event.macAddress ++ "\n" ++
  "                                </div>\n" ++
  "                                " ++ previousMACBlock event ++ "\n" ++
  "                                <div class=\"event-detail\">\n" ++
  "                                    <strong>Node:</strong> " ++ event.recordedBy ++ "\n" ++
  "                                </div>\n" ++
  "                                " ++ hostnameBlock event ++ "\n" ++
  "                            </div>\n" ++
  "                            <div class=\"event-message\">" ++ event.message ++ "</div>\n" ++
  "                        </div>\n" ++
  "                    "

/-- The value assigned to `container.innerHTML` by the callback of source
lines 43-81. -/
def eventsMarkup (rt : Runtime) (events : List NetworkEvent) : String :=
  if events.length = 0 then eventsPlaceholder
  else String.join (events.map (eventBlock rt))

/-- The test `needle` occurs in `text` (`text.includes(needle)`). -/
def containsText (text needle : String) : Prop :=
  needle.data <:+: text.data

instance (text needle : String) : Decidable (containsText text needle) :=
  inferInstanceAs (Decidable (needle.data <:+: text.data))

/-- The test `/^[a-z0-9]*$/.test(s)`. -/
def matchesSlugPattern (s : String) : Bool :=
  s.data.all isSlugChar

/-! ## The page and the event loop -/

/-- The six regions of the host page the script writes: the text of the four
stat elements and the markup of the two containers. -/
structure Dom where
  statTotal : String
  statSpoofing : String
  statNew : String
  statMatch : String
  orgStatsContainer : String
  eventsList : String
deriving DecidableEq, Repr

/-- The three backend resources. -/
inductive Endpoint where
  | events
  | stats
  | orgStats
deriving DecidableEq, Repr

/-- The path requested for an endpoint. -/
def Endpoint.path : Endpoint → String
  | .events => "/api/events"
  | .stats => "/api/stats"
  | .orgStats => "/api/org-stats"

/-- An observable effect: a request is issued by `fetch`, a request completes
(its response arrives or its transport fails), a line goes to
`console.error`. -/
inductive Effect where
  | request (e : Endpoint)
  | settled (e : Endpoint)
  | consoleError (label : String) (error : String)
deriving DecidableEq, Repr

/-- The state a call of the script runs in: the page, the requests in flight,
the effects so far in order, and the rejections no handler caught. -/
structure World where
  dom : Dom
  inFlight : List Endpoint
  trace : List Effect
  unhandled : List String
deriving DecidableEq, Repr

/-- A page with empty regions and nothing in flight. -/
def World.blank : World :=
  { dom := ⟨"", "", "", "", "", ""⟩, inFlight := [], trace := [], unhandled := [] }

/-- A settled promise. -/
inductive Settled (α : Type) where
  | fulfilled (value : α)
  | rejected (reason : String)
deriving DecidableEq, Repr

/-- A response, as far as the script uses one: what `response.json()` settles
to. -/
structure Response (β : Type) where
  json : Settled β

/-- How a request ends: its transport fails, its body fails to parse as JSON,
or its body parses to `v`. -/
inductive Outcome (β : Type) where
  | transportFailure (reason : String)
  | parseFailure (reason : String)
  | body (v : β)
deriving DecidableEq, Repr

/-- What the promise returned by `fetch` settles to. -/
def Outcome.fetched {β : Type} : Outcome β → Settled (Response β)
  | .transportFailure reason => .rejected reason
  | .parseFailure reason => .fulfilled ⟨.rejected reason⟩
  | .body v => .fulfilled ⟨.fulfilled v⟩

/-- The method `p.then(onFulfilled)`: the callback runs on a fulfilled promise, a
rejection passes through. -/
def thenP {α β : Type} (p : World × Settled α)
    (onFulfilled : α → World → World × Settled β) : World × Settled β :=
  match p.2 with
  | .fulfilled value => onFulfilled value p.1
  | .rejected reason => (p.1, .rejected reason)

/-- The method `p.catch(onRejected)`: the callback runs on a rejected promise, a
fulfilment passes through. -/
def catchP {α : Type} (p : World × Settled α)
    (onRejected : String → World → World × Settled α) : World × Settled α :=
  match p.2 with
  | .fulfilled value => (p.1, .fulfilled value)
  | .rejected reason => onRejected reason p.1

/-- The call `console.error(label, error)`. -/
def World.consoleError (w : World) (label error : String) : World :=
  { w with trace := w.trace ++ [.consoleError label error] }

/-- The call `fetch(path)`: the request is issued and is in flight. -/
def World.fetch (w : World) (e : Endpoint) : World :=
  { w with inFlight := w.inFlight ++ [e], trace := w.trace ++ [.request e] }

/-- A request in flight completes. -/
def World.complete (w : World) (e : Endpoint) : World :=
  { w with inFlight := w.inFlight.erase e, trace := w.trace ++ [.settled e] }

/-- A promise chain has run to its end: a rejection nothing caught is
recorded. -/
def World.finish (p : World × Settled Unit) : World :=
  match p.2 with
  | .fulfilled _ => p.1
  | .rejected reason => { p.1 with unhandled := p.1.unhandled ++ [reason] }

/-- The promise chain of source lines 7-15, run on the outcome of the
request. -/
def statsChain (rt : Runtime) (o : Outcome StatsSummary) (w : World) : World × Settled Unit :=
  catchP
    (thenP (thenP (w, o.fetched) (fun response w => (w, response.json)))
      (fun stats w =>
        let w := { w with dom := { w.dom with statTotal := numberToString rt stats.total } }
        let w := { w with dom := { w.dom with statSpoofing := numberToString rt stats.spoofing } }
        let w := { w with dom := { w.dom with statNew := numberToString rt stats.new_devices } }
        let w := { w with dom := { w.dom with statMatch := numberToString rt stats.«matches» } }
        (w, .fulfilled ())))
    (fun error w => (w.consoleError "Error loading stats:" error, .fulfilled ()))

/-- The promise chain of source lines 19-37, run on the outcome of the
request. -/
def orgStatsChain (rt : Runtime) (o : Outcome OrgStats) (w : World) : World × Settled Unit :=
  catchP
    (thenP (thenP (w, o.fetched) (fun response w => (w, response.json)))
      (fun orgStats w =>
        ({ w with dom := { w.dom with orgStatsContainer := orgStatsMarkup rt orgStats } },
          .fulfilled ())))
    (fun error w => (w.consoleError "Error loading org stats:" error, .fulfilled ()))

/-- The promise chain of source lines 41-82, run on the outcome of the
request. -/
def eventsChain (rt : Runtime) (o : Outcome (List NetworkEvent)) (w : World) :
    World × Settled Unit :=
  catchP
    (thenP (thenP (w, o.fetched) (fun response w => (w, response.json)))
      (fun events w =>
        ({ w with dom := { w.dom with eventsList := eventsMarkup rt events } },
          .fulfilled ())))
    (fun error w => (w.consoleError "Error loading events:" error, .fulfilled ()))

/-- Source lines 6-16, the synchronous call: the request is issued and the
handlers are registered. -/
def loadStats (w : World) : World :=
  w.fetch .stats

/-- Source lines 18-38, the synchronous call. -/
def loadOrgStats (w : World) : World :=
  w.fetch .orgStats

/-- Source lines 40-86, the synchronous call: the events request is issued,
then `loadStats()` and `loadOrgStats()` are called. -/
def loadEvents (w : World) : World :=
  loadOrgStats (loadStats (w.fetch .events))

/-- The completion of one request, with its outcome. -/
inductive Arrival where
  | events (o : Outcome (List NetworkEvent))
  | stats (o : Outcome StatsSummary)
  | orgStats (o : Outcome OrgStats)

/-- The endpoint an arrival belongs to. -/
def Arrival.endpoint : Arrival → Endpoint
  | .events _ => .events
  | .stats _ => .stats
  | .orgStats _ => .orgStats

/-- One turn of the event loop: a request in flight completes and the promise
chain registered for it runs. Nothing happens for an endpoint with no request in
flight. -/
def deliver (rt : Runtime) (a : Arrival) (w : World) : World :=
  if a.endpoint ∈ w.inFlight then
    match a with
    | .events o => World.finish (eventsChain rt o (w.complete .events))
    | .stats o => World.finish (statsChain rt o (w.complete .stats))
    | .orgStats o => World.finish (orgStatsChain rt o (w.complete .orgStats))
  else w

/-- The event loop: the arrivals are delivered in their order. -/
def run (rt : Runtime) (arrivals : List Arrival) (w : World) : World :=
  arrivals.foldl (fun w a => deliver rt a w) w

/-- The first occurrence of `a` in the trace comes before any occurrence of
`b`. -/
def precedes (a b : Effect) (trace : List Effect) : Prop :=
  trace.indexOf a < trace.indexOf b

instance (a b : Effect) (trace : List Effect) : Decidable (precedes a b trace) :=
  inferInstanceAs (Decidable (trace.indexOf a < trace.indexOf b))

/-! ## Searching rendered markup for a text -/

/-- The texts `needle` and `text` agree as far as both of them go. -/
def agreesWith : List Char → List Char → Bool
  | [], _ => true
  | _ :: _, [] => true
  | a :: as, b :: bs => a == b && agreesWith as bs

/-- At no position of `fixed` can an occurrence of `needle` start, whatever
follows `fixed`. -/
def clearOf (needle : List Char) : List Char → Bool
  | [] => true
  | c :: rest => !agreesWith needle (c :: rest) && clearOf needle rest

/-- The text `fixed` begins with a character that `needle` does not have. -/
def startsOutside (needle : List Char) : List Char → Bool
  | [] => false
  | c :: _ => !needle.contains c

/-- A template literal read as its first fixed text followed by pairs of an
interpolated value and the fixed text after it. -/
def renderTemplate (first : List Char) : List (List Char × List Char) → List Char
  | [] => first
  | (value, fixed) :: more => first ++ (value ++ renderTemplate fixed more)

/-- No occurrence of `needle` can touch the fixed texts of a template: none can
start in one, and none can run from a value into the fixed text after it. -/
def templateClearOf (needle first : List Char) (rest : List (List Char × List Char)) : Bool :=
  !needle.isEmpty && clearOf needle first &&
    rest.all (fun p => startsOutside needle p.2 && clearOf needle p.2)

/-- The fields of an event that `eventBlock` interpolates, apart from
`previousMAC`, do not contain `needle`. -/
def NetworkEvent.otherFieldsFreeOf (rt : Runtime) (event : NetworkEvent) (needle : String) :
    Prop :=
  ¬ containsText event.eventType needle ∧
  ¬ containsText (formatTime rt event.timestamp) needle ∧
  ¬ containsText event.ipAddress needle ∧
  ¬ containsText event.macAddress needle ∧
  ¬ containsText event.recordedBy needle ∧
  ¬ containsText (fieldText event.hostname) needle ∧
  ¬ containsText event.message needle

instance (rt : Runtime) (event : NetworkEvent) (needle : String) :
    Decidable (event.otherFieldsFreeOf rt needle) := by
  unfold NetworkEvent.otherFieldsFreeOf
  infer_instance

/-! ## Sample events -/

/-- A new-device event with neither `previousMAC` nor `hostname`. -/
def NetworkEvent.sampleNew : NetworkEvent :=
  { eventType := "NEW_DEVICE", timestamp := .epoch 0, ipAddress := "10.0.0.7",
    macAddress := "00:11:22:33:44:55", previousMAC := none, recordedBy := "node-a",
    hostname := none, message := "first sighting" }

/-- A spoofing event with `previousMAC` and `hostname`. -/
def NetworkEvent.sampleSpoof : NetworkEvent :=
  { eventType := "SPOOFING", timestamp := .text "2024-05-01T10:00:00Z", ipAddress := "10.0.0.7",
    macAddress := "66:77:88:99:AA:BB", previousMAC := some "AA:BB:CC:DD:EE:FF",
    recordedBy := "node-b", hostname := some "printer", message := "MAC changed" }

/-- An event without `previousMAC` whose message carries the markup of the
label. -/
def NetworkEvent.sampleEcho : NetworkEvent :=
  { eventType := "NEW_DEVICE", timestamp := .epoch 0, ipAddress := "10.0.0.7",
    macAddress := "00:11:22:33:44:55", previousMAC := none, recordedBy := "node-a",
    hostname := none, message := "<strong>Previous MAC:</strong> 00:00:00:00:00:00" }


/-! ## Slugging -/

theorem isSlugChar_ascii {c : Char} (h : isSlugChar c = true) : c.toNat < 128 := by
  simp only [isSlugChar, Bool.or_eq_true, Bool.and_eq_true, decide_eq_true_eq] at h
  omega

theorem isSlugChar_toLower {c : Char} (h : isSlugChar c = true) : c.toLower = c := by
  simp only [isSlugChar, Bool.or_eq_true, Bool.and_eq_true, decide_eq_true_eq] at h
  have hn : ¬ (c.toNat ≥ 65 ∧ c.toNat ≤ 90) := by omega
  simp only [Char.toLower, hn, if_false]

theorem lowerFrom_slugChars (rt : Runtime) (cs : List Char) :
    ∀ before : List Char, (∀ c ∈ cs, isSlugChar c = true) → lowerFrom rt before cs = cs := by
  induction cs with
  | nil => intro _ _; rfl
  | cons c after ih =>
    intro before h
    have hc : isSlugChar c = true := h c (List.mem_cons_self c after)
    have hrest : ∀ d ∈ after, isSlugChar d = true :=
      fun d hd => h d (List.mem_cons_of_mem c hd)
    simp only [lowerFrom, lowerCodePoint, isSlugChar_ascii hc, if_true, isSlugChar_toLower hc,
      ih (before ++ [c]) hrest, List.singleton_append]

theorem slug_data (rt : Runtime) (x : String) :
    (slug rt x).data = (lowerFrom rt [] x.data).filter isSlugChar := rfl

theorem slug_chars (rt : Runtime) (x : String) : ∀ c ∈ (slug rt x).data, isSlugChar c = true := by
  intro c hc
  rw [slug_data] at hc
  exact (List.mem_filter.mp hc).2

theorem toLower_toNat_of_upper {c : Char} (h : 65 ≤ c.toNat ∧ c.toNat ≤ 90) :
    c.toLower.toNat = c.toNat + 32 := by
  have hv : (c.toNat + 32).isValidChar := by
    left
    omega
  have hc : c.toNat ≥ 65 ∧ c.toNat ≤ 90 := h
  simp only [Char.toLower, hc, and_self, if_true]
  simp only [Char.ofNat, hv, dite_true]
  rfl

theorem isSlugChar_toLower_of_alnum {c : Char} (h : isAsciiAlnum c = true) :
    isSlugChar c.toLower = true := by
  simp only [isAsciiAlnum, Bool.or_eq_true, Bool.and_eq_true, decide_eq_true_eq] at h
  by_cases hu : 65 ≤ c.toNat ∧ c.toNat ≤ 90
  · simp only [isSlugChar, toLower_toNat_of_upper hu, Bool.or_eq_true, Bool.and_eq_true,
      decide_eq_true_eq]
    omega
  · have hn : ¬ (c.toNat ≥ 65 ∧ c.toNat ≤ 90) := hu
    simp only [Char.toLower, hn, if_false, isSlugChar, Bool.or_eq_true, Bool.and_eq_true,
      decide_eq_true_eq]
    omega

theorem lowerFrom_alnum (rt : Runtime) (cs : List Char) :
    ∀ before : List Char, (∀ c ∈ cs, isAsciiAlnum c = true) →
      lowerFrom rt before cs = cs.map Char.toLower := by
  induction cs with
  | nil => intro _ _; rfl
  | cons c after ih =>
    intro before h
    have hc : isAsciiAlnum c = true := h c (List.mem_cons_self c after)
    have hrest : ∀ d ∈ after, isAsciiAlnum d = true :=
      fun d hd => h d (List.mem_cons_of_mem c hd)
    have hascii : c.toNat < 128 := by
      simp only [isAsciiAlnum, Bool.or_eq_true, Bool.and_eq_true, decide_eq_true_eq] at hc
      omega
    simp only [lowerFrom, lowerCodePoint, hascii, if_true, ih (before ++ [c]) hrest,
      List.singleton_append, List.map_cons]

/-- C9. The org-name slugging of `loadOrgStats` is idempotent: for every string
`x` (and every Unicode case table of the runtime),
`slug (slug x) = slug x`. -/
theorem slug_idempotent (rt : Runtime) (x : String) : slug rt (slug rt x) = slug rt x := by
  apply String.ext
  rw [slug_data rt (slug rt x), lowerFrom_slugChars rt _ [] (slug_chars rt x)]
  exact List.filter_eq_self.mpr (slug_chars rt x)

/-- C10. For every organization name `x`, `slug x` matches `^[a-z0-9]*$`, every
character of it is a lower-case ASCII letter or a digit, it is exactly the
lower-cased name with every character outside `[a-z0-9]` removed, a name made of
ASCII letters and digits keeps all its characters (lower-cased), and `"ACME"`
gives `"acme"`. -/
theorem slug_spec (rt : Runtime) (x : String) :
    matchesSlugPattern (slug rt x) = true ∧
    (∀ c ∈ (slug rt x).data, ('a' ≤ c ∧ c ≤ 'z') ∨ ('0' ≤ c ∧ c ≤ '9')) ∧
    (slug rt x).data =
      (toLowerCase rt x).data.filter
        (fun c => decide (('a' ≤ c ∧ c ≤ 'z') ∨ ('0' ≤ c ∧ c ≤ '9'))) ∧
    ((∀ c ∈ x.data, isAsciiAlnum c = true) →
      (slug rt x).data = x.data.map Char.toLower ∧ (slug rt x).length = x.length) ∧
    slug rt "ACME" = "acme" := by
  have hclass : ∀ c : Char,
      isSlugChar c = decide (('a' ≤ c ∧ c ≤ 'z') ∨ ('0' ≤ c ∧ c ≤ '9')) := by
    intro c
    simp only [isSlugChar, Char.le_def, Char.toNat, UInt32.le_def, Fin.le_def]
    rw [Bool.eq_iff_iff]
    simp only [Bool.or_eq_true, Bool.and_eq_true, decide_eq_true_eq]
    rfl
  refine ⟨?_, ?_, ?_, ?_, rfl⟩
  · exact List.all_eq_true.mpr (slug_chars rt x)
  · intro c hc
    have h := slug_chars rt x c hc
    rw [hclass] at h
    exact of_decide_eq_true h
  · rw [slug_data]
    congr 1
    funext c
    exact hclass c
  · intro h
    have hd : (slug rt x).data = x.data.map Char.toLower := by
      rw [slug_data, lowerFrom_alnum rt _ [] h]
      apply List.filter_eq_self.mpr
      intro c hc
      obtain ⟨d, hd, rfl⟩ := List.mem_map.mp hc
      exact isSlugChar_toLower_of_alnum (h d hd)
    refine ⟨hd, ?_⟩
    simp only [String.length, hd, List.length_map]

/-- Witness of C10 at the name `"Acme9"`. -/
theorem slug_spec_witness :
    (∀ c ∈ "Acme9".data, isAsciiAlnum c = true) ∧
      (slug Runtime.sample "Acme9").data = "Acme9".data.map Char.toLower ∧
      (slug Runtime.sample "Acme9").length = "Acme9".length :=
  ⟨by decide, (slug_spec Runtime.sample "Acme9").2.2.2.1 (by decide)⟩


/-! ## Requests and their completion -/

theorem loadStats_inFlight (w : World) : Endpoint.stats ∈ (loadStats w).inFlight := by
  simp [loadStats, World.fetch]

theorem deliver_stats_body (rt : Runtime) (s : StatsSummary) (w : World)
    (h : Endpoint.stats ∈ w.inFlight) :
    (deliver rt (.stats (.body s)) w).dom =
      { w.dom with
        statTotal := numberToString rt s.total
        statSpoofing := numberToString rt s.spoofing
        statNew := numberToString rt s.new_devices
        statMatch := numberToString rt s.«matches» } := by
  simp [deliver, Arrival.endpoint, h, statsChain, thenP, catchP, Outcome.fetched, World.finish,
    World.complete]

theorem numberToString_safe (rt : Runtime) (n : Int) (h : n.natAbs ≤ maxSafeInteger) :
    numberToString rt n = toString n := by
  simp [numberToString, h]

/-- C3. For every valid StatsSummary returned by `/api/stats`, once the request
of `loadStats` has completed the text of `stat-total`, `stat-spoofing`,
`stat-new` and `stat-match` is the decimal text of `total`, `spoofing`,
`new_devices` and `matches` respectively, and the `org-stats-container` and
`events-list` regions are unchanged. -/
theorem loadStats_writes_fields (rt : Runtime) (w : World) (s : StatsSummary) (h : s.valid) :
    (deliver rt (.stats (.body s)) (loadStats w)).dom.statTotal = toString s.total ∧
    (deliver rt (.stats (.body s)) (loadStats w)).dom.statSpoofing = toString s.spoofing ∧
    (deliver rt (.stats (.body s)) (loadStats w)).dom.statNew = toString s.new_devices ∧
    (deliver rt (.stats (.body s)) (loadStats w)).dom.statMatch = toString s.«matches» ∧
    (deliver rt (.stats (.body s)) (loadStats w)).dom.orgStatsContainer =
      w.dom.orgStatsContainer ∧
    (deliver rt (.stats (.body s)) (loadStats w)).dom.eventsList = w.dom.eventsList := by
  obtain ⟨h1, h2, h3, h4⟩ := h
  rw [deliver_stats_body rt s _ (loadStats_inFlight w)]
  simp [numberToString_safe, h1, h2, h3, h4, loadStats, World.fetch]

/-- Witness of C3: the summary with fields 12, 3, 4 and 5 on a blank page. -/
theorem loadStats_writes_fields_witness :
    (⟨12, 3, 4, 5⟩ : StatsSummary).valid ∧
    (deliver Runtime.sample (.stats (.body ⟨12, 3, 4, 5⟩)) (loadStats World.blank)).dom.statTotal =
      "12" ∧
    (deliver Runtime.sample (.stats (.body ⟨12, 3, 4, 5⟩)) (loadStats World.blank)).dom.statMatch =
      "5" :=
  have hv : (⟨12, 3, 4, 5⟩ : StatsSummary).valid := by
    simp [StatsSummary.valid, maxSafeInteger]
  have h := loadStats_writes_fields Runtime.sample World.blank ⟨12, 3, 4, 5⟩ hv
  ⟨hv, h.1, h.2.2.2.1⟩

/-- C4. For every prior state, when the `/api/stats` request fails in transport
or its body fails to parse as JSON, neither the call of `loadStats` nor the
completion of its request changes any region of the page, and no rejection is
left uncaught. -/
theorem loadStats_failure_contained (rt : Runtime) (w : World) (reason : String) :
    (loadStats w).dom = w.dom ∧ (loadStats w).unhandled = w.unhandled ∧
    (deliver rt (.stats (.transportFailure reason)) (loadStats w)).dom = w.dom ∧
    (deliver rt (.stats (.transportFailure reason)) (loadStats w)).unhandled = w.unhandled ∧
    (deliver rt (.stats (.parseFailure reason)) (loadStats w)).dom = w.dom ∧
    (deliver rt (.stats (.parseFailure reason)) (loadStats w)).unhandled = w.unhandled := by
  simp [deliver, Arrival.endpoint, statsChain, thenP, catchP, Outcome.fetched, World.finish,
    World.complete, World.consoleError, loadStats, World.fetch]


/-! ## One polling cycle -/

theorem loadEvents_trace (w : World) :
    (loadEvents w).trace =
      w.trace ++ [.request .events, .request .stats, .request .orgStats] := by
  simp [loadEvents, loadOrgStats, loadStats, World.fetch]

theorem loadEvents_unhandled (w : World) : (loadEvents w).unhandled = w.unhandled := rfl

theorem chain_effects {β : Type} (label : String) (write : β → World → World)
    (hwrite : ∀ v w, (write v w).trace = w.trace ∧ (write v w).unhandled = w.unhandled)
    (o : Outcome β) (w : World) :
    ∃ extra : List Effect,
      (World.finish (catchP
        (thenP (thenP (w, o.fetched) (fun response w => (w, response.json)))
          (fun v w => (write v w, .fulfilled ())))
        (fun error w => (w.consoleError label error, .fulfilled ())))).trace = w.trace ++ extra ∧
      (∀ e, Effect.request e ∉ extra) ∧
      (World.finish (catchP
        (thenP (thenP (w, o.fetched) (fun response w => (w, response.json)))
          (fun v w => (write v w, .fulfilled ())))
        (fun error w => (w.consoleError label error, .fulfilled ())))).unhandled =
          w.unhandled := by
  cases o with
  | transportFailure reason =>
    exact ⟨[.consoleError label reason], by
      simp [thenP, catchP, Outcome.fetched, World.finish, World.consoleError]⟩
  | parseFailure reason =>
    exact ⟨[.consoleError label reason], by
      simp [thenP, catchP, Outcome.fetched, World.finish, World.consoleError]⟩
  | body v =>
    exact ⟨[], by
      simp [thenP, catchP, Outcome.fetched, World.finish, hwrite]⟩

theorem deliver_effects (rt : Runtime) (a : Arrival) (w : World) :
    ∃ extra : List Effect,
      (deliver rt a w).trace = w.trace ++ extra ∧ (∀ e, Effect.request e ∉ extra) ∧
        (deliver rt a w).unhandled = w.unhandled := by
  unfold deliver
  split
  · cases a with
    | events o =>
      obtain ⟨extra, h1, h2, h3⟩ := chain_effects "Error loading events:"
        (fun events w => { w with dom := { w.dom with eventsList := eventsMarkup rt events } })
        (fun _ _ => ⟨rfl, rfl⟩) o (w.complete .events)
      refine ⟨.settled .events :: extra, ?_, ?_, ?_⟩
      · simpa [eventsChain, World.complete] using h1
      · intro e he
        rcases List.mem_cons.mp he with h | h
        · cases h
        · exact h2 e h
      · simpa [eventsChain, World.complete] using h3
    | stats o =>
      obtain ⟨extra, h1, h2, h3⟩ := chain_effects "Error loading stats:"
        (fun stats w =>
          { w with dom := { w.dom with
              statTotal := numberToString rt stats.total
              statSpoofing := numberToString rt stats.spoofing
              statNew := numberToString rt stats.new_devices
              statMatch := numberToString rt stats.«matches» } })
        (fun _ _ => ⟨rfl, rfl⟩) o (w.complete .stats)
      refine ⟨.settled .stats :: extra, ?_, ?_, ?_⟩
      · simpa [statsChain, World.complete] using h1
      · intro e he
        rcases List.mem_cons.mp he with h | h
        · cases h
        · exact h2 e h
      · simpa [statsChain, World.complete] using h3
    | orgStats o =>
      obtain ⟨extra, h1, h2, h3⟩ := chain_effects "Error loading org stats:"
        (fun orgStats w =>
          { w with dom := { w.dom with orgStatsContainer := orgStatsMarkup rt orgStats } })
        (fun _ _ => ⟨rfl, rfl⟩) o (w.complete .orgStats)
      refine ⟨.settled .orgStats :: extra, ?_, ?_, ?_⟩
      · simpa [orgStatsChain, World.complete] using h1
      · intro e he
        rcases List.mem_cons.mp he with h | h
        · cases h
        · exact h2 e h
      · simpa [orgStatsChain, World.complete] using h3
  · exact ⟨[], by simp⟩

theorem run_effects (rt : Runtime) (arrivals : List Arrival) :
    ∀ w : World, ∃ extra : List Effect,
      (run rt arrivals w).trace = w.trace ++ extra ∧ (∀ e, Effect.request e ∉ extra) ∧
        (run rt arrivals w).unhandled = w.unhandled := by
  induction arrivals with
  | nil => intro w; exact ⟨[], by simp [run]⟩
  | cons a rest ih =>
    intro w
    obtain ⟨x1, h1, n1, u1⟩ := deliver_effects rt a w
    obtain ⟨x2, h2, n2, u2⟩ := ih (deliver rt a w)
    refine ⟨x1 ++ x2, ?_, ?_, ?_⟩
    · show (run rt rest (deliver rt a w)).trace = _
      rw [h2, h1, List.append_assoc]
    · intro e he
      rcases List.mem_append.mp he with h | h
      · exact n1 e h
      · exact n2 e h
    · show (run rt rest (deliver rt a w)).unhandled = _
      rw [u2, u1]

theorem cycle_trace (rt : Runtime) (w : World) (arrivals : List Arrival) :
    ∃ rest : List Effect,
      (run rt arrivals (loadEvents w)).trace =
        w.trace ++ ([.request .events, .request .stats, .request .orgStats] ++ rest) ∧
      (∀ e, Effect.request e ∉ rest) ∧
      (run rt arrivals (loadEvents w)).unhandled = w.unhandled := by
  obtain ⟨rest, h1, h2, h3⟩ := run_effects rt arrivals (loadEvents w)
  refine ⟨rest, ?_, h2, ?_⟩
  · rw [h1, loadEvents_trace, List.append_assoc]
  · rw [h3, loadEvents_unhandled]

theorem count_request_zero (e : Endpoint) (rest : List Effect)
    (h : ∀ e, Effect.request e ∉ rest) : rest.count (.request e) = 0 :=
  List.count_eq_zero.mpr (h e)

theorem summaries_inFlight_after_events (rt : Runtime) (w : World)
    (o : Outcome (List NetworkEvent)) :
    Endpoint.stats ∈ (deliver rt (.events o) (loadEvents w)).inFlight ∧
      Endpoint.orgStats ∈ (deliver rt (.events o) (loadEvents w)).inFlight := by
  have hin : (deliver rt (.events o) (loadEvents w)).inFlight =
      (w.inFlight ++ [Endpoint.events, Endpoint.stats, Endpoint.orgStats]).erase Endpoint.events := by
    cases o <;>
      simp [deliver, Arrival.endpoint, eventsChain, thenP, catchP, Outcome.fetched, World.finish,
        World.complete, World.consoleError, loadEvents, loadOrgStats, loadStats, World.fetch]
  rw [hin]
  constructor
  · exact (List.mem_erase_of_ne (by decide)).mpr (by simp)
  · exact (List.mem_erase_of_ne (by decide)).mpr (by simp)

/-- C5. For every outcome of the `/api/events` request, and of the other two,
arriving in any order, one call of `loadEvents` issues the `/api/stats` and
`/api/org-stats` requests exactly once each and leaves no rejection uncaught;
and on the body `[]` the events-list region becomes exactly the
"No events yet. Waiting for ARP traffic..." placeholder markup. -/
theorem loadEvents_always_refreshes_summaries (rt : Runtime) (w : World)
    (o : Outcome (List NetworkEvent)) (arrivals : List Arrival) :
    ((run rt (.events o :: arrivals) (loadEvents w)).trace.drop w.trace.length).count
        (.request .stats) = 1 ∧
    ((run rt (.events o :: arrivals) (loadEvents w)).trace.drop w.trace.length).count
        (.request .orgStats) = 1 ∧
    (run rt (.events o :: arrivals) (loadEvents w)).unhandled = w.unhandled ∧
    (deliver rt (.events o) (loadEvents w)).unhandled = w.unhandled ∧
    Endpoint.stats ∈ (deliver rt (.events o) (loadEvents w)).inFlight ∧
    Endpoint.orgStats ∈ (deliver rt (.events o) (loadEvents w)).inFlight ∧
    (deliver rt (.events (.body [])) (loadEvents w)).dom.eventsList =
      "<div class=\"no-events\">No events yet. Waiting for ARP traffic...</div>" := by
  obtain ⟨rest, h1, h2, h3⟩ := cycle_trace rt w (.events o :: arrivals)
  obtain ⟨x, _, _, hx⟩ := deliver_effects rt (.events o) (loadEvents w)
  refine ⟨?_, ?_, h3, ?_, ?_, ?_, ?_⟩
  · rw [h1, List.drop_left]
    simp [count_request_zero _ rest h2]
  · rw [h1, List.drop_left]
    simp [count_request_zero _ rest h2]
  · rw [hx, loadEvents_unhandled]
  · exact (summaries_inFlight_after_events rt w o).1
  · exact (summaries_inFlight_after_events rt w o).2
  · simp [deliver, Arrival.endpoint, eventsChain, thenP, catchP, Outcome.fetched, World.finish,
      World.complete, loadEvents, loadOrgStats, loadStats, World.fetch, eventsMarkup,
      eventsPlaceholder]

/-- C6, as the claim states it, fails: on a blank page, after `loadEvents()` and
the completion of its events request, the completion of the events request does
not precede the issuing of the stats request nor of the org-stats request. -/
theorem stats_not_issued_after_events_completion :
    ¬ precedes (.settled .events) (.request .stats)
        (run Runtime.sample [.events (.body [])] (loadEvents World.blank)).trace ∧
    ¬ precedes (.settled .events) (.request .orgStats)
        (run Runtime.sample [.events (.body [])] (loadEvents World.blank)).trace := by
  decide

/-- C6, amended. Within one `loadEvents` call the three requests are issued by
the synchronous call itself, in the order events, stats, org-stats, before any
request completes; no completion issues a request; so in every trace of effects
produced by the call the issuing of the stats and org-stats requests precedes
the completion of the events request. -/
theorem loadEvents_issues_all_requests_first (rt : Runtime) (w : World)
    (arrivals : List Arrival) :
    (loadEvents w).trace =
      w.trace ++ [.request .events, .request .stats, .request .orgStats] ∧
    (∃ rest : List Effect,
      (run rt arrivals (loadEvents w)).trace =
        w.trace ++ ([.request .events, .request .stats, .request .orgStats] ++ rest) ∧
      ∀ e, Effect.request e ∉ rest) ∧
    precedes (.request .stats) (.settled .events)
      ((run rt arrivals (loadEvents w)).trace.drop w.trace.length) ∧
    precedes (.request .orgStats) (.settled .events)
      ((run rt arrivals (loadEvents w)).trace.drop w.trace.length) := by
  obtain ⟨rest, h1, h2, _⟩ := cycle_trace rt w arrivals
  refine ⟨loadEvents_trace w, ⟨rest, h1, h2⟩, ?_, ?_⟩
  · rw [h1, List.drop_left]
    simp [precedes, List.indexOf_cons]
  · rw [h1, List.drop_left]
    simp [precedes, List.indexOf_cons]


/-! ## Rendering of the two containers -/

theorem join_append (xs ys : List String) :
    String.join (xs ++ ys) = String.join xs ++ String.join ys := by
  apply String.ext
  simp [String.data_join, String.data_append]

theorem join_singleton (x : String) : String.join [x] = x := by
  apply String.ext
  simp [String.data_join]

theorem join_at (f : α → String) (pre : List α) (x : α) (post : List α) :
    String.join ((pre ++ x :: post).map f) =
      String.join (pre.map f) ++ f x ++ String.join (post.map f) := by
  apply String.ext
  simp [String.data_join, String.data_append]

theorem infix_join_of_mem (f : α → String) (xs : List α) (x : α) (h : x ∈ xs) :
    containsText (String.join (xs.map f)) (f x) := by
  obtain ⟨pre, post, rfl⟩ := List.append_of_mem h
  rw [join_at]
  exact ⟨(String.join (pre.map f)).data, (String.join (post.map f)).data, by
    simp [String.data_append]⟩

theorem infix_append_skip {needle b : List Char} (a : List Char) (h : needle <:+: b) :
    needle <:+: a ++ b := by
  obtain ⟨s, t, e⟩ := h
  exact ⟨a ++ s, t, by simp [← e]⟩

theorem infix_append_here {needle a : List Char} (b : List Char) (h : needle <:+: a) :
    needle <:+: a ++ b := by
  obtain ⟨s, t, e⟩ := h
  exact ⟨s, t ++ b, by simp [← e]⟩

theorem orgStats_region (rt : Runtime) (w : World) (orgStats : OrgStats) :
    (deliver rt (.orgStats (.body orgStats)) (loadOrgStats w)).dom.orgStatsContainer =
      orgStatsMarkup rt orgStats := by
  simp [deliver, Arrival.endpoint, orgStatsChain, thenP, catchP, Outcome.fetched, World.finish,
    World.complete, loadOrgStats, World.fetch]

theorem events_region (rt : Runtime) (w : World) (events : List NetworkEvent) :
    (deliver rt (.events (.body events)) (loadEvents w)).dom.eventsList =
      eventsMarkup rt events := by
  simp [deliver, Arrival.endpoint, eventsChain, thenP, catchP, Outcome.fetched, World.finish,
    World.complete, loadEvents, loadOrgStats, loadStats, World.fetch]

theorem eventsMarkup_of_ne_nil (rt : Runtime) (events : List NetworkEvent) (h : events ≠ []) :
    eventsMarkup rt events = String.join (events.map (eventBlock rt)) := by
  simp [eventsMarkup, h]

theorem orgCard_class (rt : Runtime) (entry : String × Int) :
    containsText (orgCard rt entry) ("class=\"org-stat-card org-" ++ slug rt entry.1 ++ "\"") := by
  refine ⟨"\n                <div ".data,
    (">\n                    <div class=\"org-name\">" ++ entry.1 ++
      "</div>\n                    <div class=\"org-count\">" ++ numberToString rt entry.2 ++
      " reports</div>\n                </div>\n            ").data, ?_⟩
  simp only [orgCard, String.data_append, List.append_assoc]
  rfl

theorem orgCard_name (rt : Runtime) (entry : String × Int) :
    containsText (orgCard rt entry) ("<div class=\"org-name\">" ++ entry.1 ++ "</div>") := by
  refine ⟨("\n                <div class=\"org-stat-card org-" ++ slug rt entry.1 ++
      "\">\n                    ").data,
    ("\n                    <div class=\"org-count\">" ++ numberToString rt entry.2 ++
      " reports</div>\n                </div>\n            ").data, ?_⟩
  simp only [orgCard, String.data_append, List.append_assoc]
  rfl

theorem orgCard_count (rt : Runtime) (entry : String × Int) :
    containsText (orgCard rt entry)
      ("<div class=\"org-count\">" ++ numberToString rt entry.2 ++ " reports</div>") := by
  refine ⟨("\n                <div class=\"org-stat-card org-" ++ slug rt entry.1 ++
      "\">\n                    <div class=\"org-name\">" ++ entry.1 ++
      "</div>\n                    ").data,
    "\n                </div>\n            ".data, ?_⟩
  simp only [orgCard, String.data_append, List.append_assoc]
  rfl

set_option maxRecDepth 100000 in
/-- C7. For every OrgStats object returned by `/api/org-stats`: with no entries
`loadOrgStats` sets `org-stats-container` to exactly the "No data yet..."
placeholder markup; otherwise to exactly the n cards of the n entries, in the
object's entry order, each card showing its own organization name and
"<count> reports" and carrying the class `org-` followed by the slug of its
name (the count as its decimal text when it is a safe integer), at the place of
its entry; two names yield two cards whatever their slugs, as `{"A-B": 1,
"ab": 2}` shows. -/
theorem loadOrgStats_renders (rt : Runtime) (w : World) (orgStats : OrgStats) :
    (orgStats = [] →
      (deliver rt (.orgStats (.body orgStats)) (loadOrgStats w)).dom.orgStatsContainer =
        "<div class=\"no-events\">No data yet...</div>") ∧
    (orgStats ≠ [] →
      (deliver rt (.orgStats (.body orgStats)) (loadOrgStats w)).dom.orgStatsContainer =
        String.join (orgStats.map (orgCard rt))) ∧
    (orgStats.map (orgCard rt)).length = orgStats.length ∧
    (∀ entry ∈ orgStats,
      containsText (orgCard rt entry)
        ("class=\"org-stat-card org-" ++ slug rt entry.1 ++ "\"") ∧
      containsText (orgCard rt entry) ("<div class=\"org-name\">" ++ entry.1 ++ "</div>") ∧
      containsText (orgCard rt entry)
        ("<div class=\"org-count\">" ++ numberToString rt entry.2 ++ " reports</div>")) ∧
    (∀ (name₁ name₂ : String) (count₁ count₂ : Int),
      (deliver rt (.orgStats (.body [(name₁, count₁), (name₂, count₂)]))
          (loadOrgStats w)).dom.orgStatsContainer =
        orgCard rt (name₁, count₁) ++ orgCard rt (name₂, count₂)) ∧
    (∀ (pre : OrgStats) (entry : String × Int) (post : OrgStats),
      orgStats = pre ++ entry :: post →
      (deliver rt (.orgStats (.body orgStats)) (loadOrgStats w)).dom.orgStatsContainer =
        String.join (pre.map (orgCard rt)) ++ orgCard rt entry ++
          String.join (post.map (orgCard rt))) ∧
    (∀ entry : String × Int, entry.2.natAbs ≤ maxSafeInteger →
      orgCard rt entry =
        "\n" ++
        "                <div class=\"org-stat-card org-" ++ slug rt entry.1 ++ "\">\n" ++
        "                    <div class=\"org-name\">" ++ entry.1 ++ "</div>\n" ++
        "                    <div class=\"org-count\">" ++ toString entry.2 ++ " reports</div>\n" ++
        "                </div>\n" ++
        "            ") ∧
    (deliver rt (.orgStats (.body [("A-B", 1), ("ab", 2)]))
        (loadOrgStats w)).dom.orgStatsContainer =
      "\n" ++
      "                <div class=\"org-stat-card org-ab\">\n" ++
      "                    <div class=\"org-name\">A-B</div>\n" ++
      "                    <div class=\"org-count\">1 reports</div>\n" ++
      "                </div>\n" ++
      "            \n" ++
      "                <div class=\"org-stat-card org-ab\">\n" ++
      "                    <div class=\"org-name\">ab</div>\n" ++
      "                    <div class=\"org-count\">2 reports</div>\n" ++
      "                </div>\n" ++
      "            " := by
  refine ⟨?_, ?_, ?_, ?_, ?_, ?_, ?_, ?_⟩
  · intro h
    rw [orgStats_region, h]
    rfl
  · intro h
    rw [orgStats_region]
    simp [orgStatsMarkup, h]
  · simp
  · intro entry _
    exact ⟨orgCard_class rt entry, orgCard_name rt entry, orgCard_count rt entry⟩
  · intro name₁ name₂ count₁ count₂
    rw [orgStats_region]
    show String.join ([orgCard rt (name₁, count₁)] ++ [orgCard rt (name₂, count₂)]) = _
    rw [join_append, join_singleton, join_singleton]
  · intro pre entry post h
    have hne : orgStats ≠ [] := by simp [h]
    rw [orgStats_region]
    simp only [orgStatsMarkup, List.length_map, List.length_eq_zero, hne, if_false]
    rw [h, join_at]
  · intro entry h
    simp only [orgCard, numberToString, h, if_true]
  · rw [orgStats_region]
    rfl

/-- Witness of C7: the empty object, and the object with the two names
`"A-B"` and `"ab"`, whose slugs are equal. -/
theorem loadOrgStats_renders_witness :
    (deliver Runtime.sample (.orgStats (.body [])) (loadOrgStats World.blank)).dom.orgStatsContainer =
      "<div class=\"no-events\">No data yet...</div>" ∧
    slug Runtime.sample "A-B" = slug Runtime.sample "ab" ∧
    (deliver Runtime.sample (.orgStats (.body [("A-B", 1), ("ab", 2)]))
        (loadOrgStats World.blank)).dom.orgStatsContainer =
      String.join ([("A-B", 1), ("ab", 2)].map (orgCard Runtime.sample)) :=
  ⟨(loadOrgStats_renders Runtime.sample World.blank []).1 rfl, by decide,
    (loadOrgStats_renders Runtime.sample World.blank [("A-B", 1), ("ab", 2)]).2.1 (by simp)⟩

set_option maxRecDepth 100000 in
/-- C8, as the claim states it, fails: on the OrgStats `{"ACME": 3}` the markup
that `loadOrgStats` writes contains `orgacme` nowhere, so no class attribute
contains it. -/
theorem acme_card_has_no_orgacme :
    ¬ containsText
      (deliver Runtime.sample (.orgStats (.body [("ACME", 3)]))
        (loadOrgStats World.blank)).dom.orgStatsContainer
      "orgacme" := by
  decide

set_option maxRecDepth 100000 in
/-- C8, amended. `loadOrgStats` on the OrgStats `{"ACME": 3}` renders exactly one
card, whose class attribute is `org-stat-card org-acme` (it contains `org-acme`,
with the hyphen) and whose visible text is "ACME" and "3 reports". -/
theorem loadOrgStats_acme (rt : Runtime) (w : World) :
    (deliver rt (.orgStats (.body [("ACME", 3)])) (loadOrgStats w)).dom.orgStatsContainer =
      orgCard rt ("ACME", 3) ∧
    orgCard rt ("ACME", 3) =
      "\n" ++
      "                <div class=\"org-stat-card org-acme\">\n" ++
      "                    <div class=\"org-name\">ACME</div>\n" ++
      "                    <div class=\"org-count\">3 reports</div>\n" ++
      "                </div>\n" ++
      "            " ∧
    containsText (orgCard rt ("ACME", 3)) "org-acme" := by
  have hcard : orgCard rt ("ACME", 3) =
      "\n" ++
      "                <div class=\"org-stat-card org-acme\">\n" ++
      "                    <div class=\"org-name\">ACME</div>\n" ++
      "                    <div class=\"org-count\">3 reports</div>\n" ++
      "                </div>\n" ++
      "            " := by rfl
  refine ⟨?_, hcard, ?_⟩
  · rw [orgStats_region]
    show String.join [orgCard rt ("ACME", 3)] = _
    rw [join_singleton]
  · rw [hcard]
    decide

/-! ## The `previousMAC` sub-block -/

theorem prefix_agreesWith (needle : List Char) :
    ∀ fixed tail : List Char, needle <+: fixed ++ tail → agreesWith needle fixed = true := by
  induction needle with
  | nil => intro fixed _ _; cases fixed <;> rfl
  | cons a as ih =>
    intro fixed tail h
    cases fixed with
    | nil => rfl
    | cons b bs =>
      rw [List.cons_append, List.cons_prefix_cons] at h
      simp only [agreesWith, Bool.and_eq_true, beq_iff_eq]
      exact ⟨h.1, ih bs tail h.2⟩

theorem infix_skip_clear (needle : List Char) (fixed : List Char) :
    ∀ tail : List Char, clearOf needle fixed = true → needle <:+: fixed ++ tail →
      needle <:+: tail := by
  induction fixed with
  | nil => intro tail _ h; simpa using h
  | cons c rest ih =>
    intro tail hclear h
    simp only [clearOf, Bool.and_eq_true, Bool.not_eq_true'] at hclear
    rw [List.cons_append, List.infix_cons_iff] at h
    rcases h with h | h
    · have := prefix_agreesWith needle (c :: rest) tail (by simpa using h)
      rw [hclear.1] at this
      cases this
    · exact ih tail hclear.2 h

theorem prefix_stops_at (needle : List Char) (c : Char) (hc : c ∉ needle) :
    ∀ (a b : List Char), needle <+: a ++ c :: b → needle <+: a := by
  induction needle with
  | nil => intro a b _; exact List.nil_prefix
  | cons x xs ih =>
    intro a b h
    have hcx : c ≠ x := fun e => hc (e ▸ List.mem_cons_self x xs)
    have hcxs : c ∉ xs := fun m => hc (List.mem_cons_of_mem x m)
    cases a with
    | nil =>
      rw [List.nil_append, List.cons_prefix_cons] at h
      exact absurd h.1.symm hcx
    | cons y ys =>
      rw [List.cons_append, List.cons_prefix_cons] at h
      rw [List.cons_prefix_cons]
      exact ⟨h.1, ih hcxs ys b h.2⟩

theorem infix_split_at (needle : List Char) (c : Char) (hc : c ∉ needle) :
    ∀ (a b : List Char), needle <:+: a ++ c :: b → needle <:+: a ∨ needle <:+: b := by
  intro a
  induction a with
  | nil =>
    intro b h
    rw [List.nil_append, List.infix_cons_iff] at h
    rcases h with h | h
    · left
      exact (prefix_stops_at needle c hc [] b (by simpa using h)).isInfix
    · right
      exact h
  | cons y ys ih =>
    intro b h
    rw [List.cons_append, List.infix_cons_iff] at h
    rcases h with h | h
    · left
      exact (prefix_stops_at needle c hc (y :: ys) b (by simpa using h)).isInfix
    · rcases ih b h with h | h
      · left
        exact List.infix_cons h
      · right
        exact h

theorem renderTemplate_clear (needle : List Char) (rest : List (List Char × List Char)) :
    ∀ first : List Char, templateClearOf needle first rest = true →
      (∀ p ∈ rest, ¬ needle <:+: p.1) → ¬ needle <:+: renderTemplate first rest := by
  induction rest with
  | nil =>
    intro first hclear _ h
    simp only [templateClearOf, List.all_nil, Bool.and_true, Bool.and_eq_true,
      Bool.not_eq_true', List.isEmpty_eq_false] at hclear
    have h2 := infix_skip_clear needle first [] hclear.2 (by simpa [renderTemplate] using h)
    exact hclear.1 (List.eq_nil_of_infix_nil h2)
  | cons p more ih =>
    intro first hclear hvalues h
    obtain ⟨value, fixed⟩ := p
    simp only [templateClearOf, List.all_cons, Bool.and_eq_true, Bool.not_eq_true',
      List.isEmpty_eq_false] at hclear
    obtain ⟨⟨hne, hfirst⟩, ⟨hout, hfixed⟩, hmore⟩ := hclear
    have hnext : templateClearOf needle fixed more = true := by
      simp only [templateClearOf, Bool.and_eq_true, Bool.not_eq_true', List.isEmpty_eq_false]
      exact ⟨⟨hne, hfixed⟩, hmore⟩
    have hrec := ih fixed hnext (fun q hq => hvalues q (List.mem_cons_of_mem _ hq))
    have h1 : needle <:+: value ++ renderTemplate fixed more :=
      infix_skip_clear needle first _ hfirst (by simpa [renderTemplate] using h)
    cases hfx : fixed with
    | nil => rw [hfx] at hout; cases hout
    | cons c tail =>
      rw [hfx] at hout
      simp only [startsOutside, Bool.not_eq_true', List.contains_eq_any_beq, List.any_eq_false,
        beq_iff_eq] at hout
      have hc : c ∉ needle := fun m => hout c m rfl
      have hshape : renderTemplate fixed more = c :: (renderTemplate tail more) := by
        rw [hfx]
        cases more with
        | nil => rfl
        | cons q qs => obtain ⟨v, f⟩ := q; rfl
      rw [hshape] at h1 hrec
      rcases infix_split_at needle c hc value _ h1 with h2 | h2
      · exact hvalues (value, fixed) (List.mem_cons_self _ _) h2
      · exact hrec (List.infix_cons h2)

set_option maxRecDepth 100000 in
theorem eventBlock_data_no_hostname (rt : Runtime) (event : NetworkEvent)
    (hp : truthy event.previousMAC = false) (hh : truthy event.hostname = false) :
    (eventBlock rt event).data =
      renderTemplate
        ("\n" ++
         "                        <div class=\"event ").data
        [(event.eventType.data,
          ("\">\n" ++
           "                            <div class=\"event-header\">\n" ++
           "                                <span class=\"event-type ").data),
         (event.eventType.data,
          "\">".data),
         (event.eventType.data,
          ("</span>\n" ++
           "                                <span class=\"event-time\">").data),
         ((formatTime rt event.timestamp).data,
          ("</span>\n" ++
           "                            </div>\n" ++
           "                            <div class=\"event-details\">\n" ++
           "                                <div class=\"event-detail\">\n" ++
           "                                    <strong>IP:</strong> ").data),
         (event.ipAddress.data,
          ("\n" ++
           "                                </div>\n" ++
           "                                <div class=\"event-detail\">\n" ++
           "                                    <strong>MAC:</strong> ").data),
         (event.macAddress.data,
          ("\n" ++
           "                                </div>\n" ++
           "                                \n" ++
           "                                <div class=\"event-detail\">\n" ++
           "                                    <strong>Node:</strong> ").data),
         (event.recordedBy.data,
          ("\n" ++
           "                                </div>\n" ++
           "                                \n" ++
           "                            </div>\n" ++
           "                            <div class=\"event-message\">").data),
         (event.message.data,
          ("</div>\n" ++
           "                        </div>\n" ++
           "                    ").data)] := by
  simp only [eventBlock, previousMACBlock, hostnameBlock, hp, hh, Bool.false_eq_true, if_false,
    if_true, String.data_append, List.append_assoc, renderTemplate]
  rfl

set_option maxRecDepth 100000 in
theorem eventBlock_data_hostname (rt : Runtime) (event : NetworkEvent)
    (hp : truthy event.previousMAC = false) (hh : truthy event.hostname = true) :
    (eventBlock rt event).data =
      renderTemplate
        ("\n" ++
         "                        <div class=\"event ").data
        [(event.eventType.data,
          ("\">\n" ++
           "                            <div class=\"event-header\">\n" ++
           "                                <span class=\"event-type ").data),
         (event.eventType.data,
          "\">".data),
         (event.eventType.data,
          ("</span>\n" ++
           "                                <span class=\"event-time\">").data),
         ((formatTime rt event.timestamp).data,
          ("</span>\n" ++
           "                            </div>\n" ++
           "                            <div class=\"event-details\">\n" ++
           "                                <div class=\"event-detail\">\n" ++
           "                                    <strong>IP:</strong> ").data),
         (event.ipAddress.data,
          ("\n" ++
           "                                </div>\n" ++
           "                                <div class=\"event-detail\">\n" ++
           "                                    <strong>MAC:</strong> ").data),
         (event.macAddress.data,
          ("\n" ++
           "                                </div>\n" ++
           "                                \n" ++
           "                                <div class=\"event-detail\">\n" ++
           "                                    <strong>Node:</strong> ").data),
         (event.recordedBy.data,
          ("\n" ++
           "                                </div>\n" ++
           "                                \n" ++
           "                                <div class=\"event-detail\">\n" ++
           "                                    <strong>Hostname:</strong> ").data),
         ((fieldText event.hostname).data,
          ("\n" ++
           "                                </div>\n" ++
           "                                \n" ++
           "                            </div>\n" ++
           "                            <div class=\"event-message\">").data),
         (event.message.data,
          ("</div>\n" ++
           "                        </div>\n" ++
           "                    ").data)] := by
  simp only [eventBlock, previousMACBlock, hostnameBlock, hp, hh, Bool.false_eq_true, if_false,
    if_true, String.data_append, List.append_assoc, renderTemplate]
  rfl

set_option maxRecDepth 100000 in
theorem eventBlock_without_previousMAC (rt : Runtime) (event : NetworkEvent)
    (hp : truthy event.previousMAC = false)
    (hfree : event.otherFieldsFreeOf rt "Previous MAC") :
    ¬ containsText (eventBlock rt event) "Previous MAC" := by
  obtain ⟨h1, h2, h3, h4, h5, h6, h7⟩ := hfree
  unfold containsText at *
  cases hh : truthy event.hostname with
  | false =>
    rw [eventBlock_data_no_hostname rt event hp hh]
    apply renderTemplate_clear
    · rfl
    · intro p hp
      simp only [List.mem_cons, List.mem_singleton, List.not_mem_nil, or_false] at hp
      rcases hp with h | h | h | h | h | h | h | h <;> rw [h] <;> assumption
  | true =>
    rw [eventBlock_data_hostname rt event hp hh]
    apply renderTemplate_clear
    · rfl
    · intro p hp
      simp only [List.mem_cons, List.mem_singleton, List.not_mem_nil, or_false] at hp
      rcases hp with h | h | h | h | h | h | h | h | h <;> rw [h] <;> assumption


set_option maxRecDepth 100000 in
theorem eventBlock_with_previousMAC (rt : Runtime) (event : NetworkEvent)
    (h : event.previousMAC = some "AA:BB:CC:DD:EE:FF") :
    containsText (eventBlock rt event) "<strong>Previous MAC:</strong> AA:BB:CC:DD:EE:FF" := by
  have hblock : "<strong>Previous MAC:</strong> AA:BB:CC:DD:EE:FF".data <:+:
      (previousMACBlock event).data := by
    simp only [previousMACBlock, h]
    decide
  unfold containsText
  simp only [eventBlock, String.data_append, List.append_assoc]
  repeat (first | exact infix_append_here _ hblock | apply infix_append_skip)

theorem eventBlock_contains_message (rt : Runtime) (event : NetworkEvent) (needle : String)
    (h : containsText event.message needle) : containsText (eventBlock rt event) needle := by
  unfold containsText at *
  simp only [eventBlock, String.data_append, List.append_assoc]
  repeat (first | exact infix_append_here _ h | apply infix_append_skip)

/-- C2, as the claim states it, fails: the event `sampleEcho` lacks `previousMAC`,
and the block `loadEvents` renders for it contains the "Previous MAC" label,
carried by its `message`. -/
theorem label_without_previousMAC :
    NetworkEvent.sampleEcho.previousMAC = none ∧
    containsText
      (deliver Runtime.sample (.events (.body [NetworkEvent.sampleEcho]))
        (loadEvents World.blank)).dom.eventsList
      "<strong>Previous MAC:</strong>" := by
  refine ⟨rfl, ?_⟩
  rw [events_region, eventsMarkup_of_ne_nil _ _ (by simp)]
  show containsText (String.join [eventBlock Runtime.sample NetworkEvent.sampleEcho]) _
  rw [join_singleton]
  exact eventBlock_contains_message _ _ _ (by decide)

/-- C2, amended. For every event lacking `previousMAC` (absent or falsy) whose
other interpolated fields (eventType, the formatted timestamp, ipAddress,
macAddress, recordedBy, hostname, message) do not contain the text
"Previous MAC", the rendered block contains no "Previous MAC" text; and for
every event with `previousMAC: "AA:BB:CC:DD:EE:FF"` the rendered block contains
the "Previous MAC" label followed by that value. -/
theorem previousMAC_block_conditional (rt : Runtime) (event : NetworkEvent) :
    (truthy event.previousMAC = false → event.otherFieldsFreeOf rt "Previous MAC" →
      ¬ containsText (eventBlock rt event) "Previous MAC") ∧
    (event.previousMAC = some "AA:BB:CC:DD:EE:FF" →
      containsText (eventBlock rt event)
        "<strong>Previous MAC:</strong> AA:BB:CC:DD:EE:FF") :=
  ⟨eventBlock_without_previousMAC rt event, eventBlock_with_previousMAC rt event⟩

set_option maxRecDepth 100000 in
/-- Witness of C2: `sampleNew` lacks `previousMAC` and `sampleSpoof` has
`previousMAC: "AA:BB:CC:DD:EE:FF"`. -/
theorem previousMAC_block_conditional_witness :
    (truthy NetworkEvent.sampleNew.previousMAC = false ∧
      NetworkEvent.sampleNew.otherFieldsFreeOf Runtime.sample "Previous MAC" ∧
      ¬ containsText (eventBlock Runtime.sample NetworkEvent.sampleNew) "Previous MAC") ∧
    (NetworkEvent.sampleSpoof.previousMAC = some "AA:BB:CC:DD:EE:FF" ∧
      containsText (eventBlock Runtime.sample NetworkEvent.sampleSpoof)
        "<strong>Previous MAC:</strong> AA:BB:CC:DD:EE:FF") :=
  ⟨⟨rfl, by decide,
      (previousMAC_block_conditional Runtime.sample NetworkEvent.sampleNew).1 rfl (by decide)⟩,
    ⟨rfl, (previousMAC_block_conditional Runtime.sample NetworkEvent.sampleSpoof).2 rfl⟩⟩

/-! ## The events list -/

theorem infix_span {n₁ n₂ p q : List Char} (x rest : List Char) (h₁ : n₁ <:+ p)
    (h₂ : n₂ <+: q) : n₁ ++ (x ++ n₂) <:+: p ++ (x ++ (q ++ rest)) := by
  obtain ⟨s, hs⟩ := h₁
  obtain ⟨t, ht⟩ := h₂
  exact ⟨s, t ++ rest, by simp [← hs, ← ht]⟩

theorem infix_span_end {n₁ n₂ p q : List Char} (x : List Char) (h₁ : n₁ <:+ p)
    (h₂ : n₂ <+: q) : n₁ ++ (x ++ n₂) <:+: p ++ (x ++ q) := by
  obtain ⟨s, hs⟩ := h₁
  obtain ⟨t, ht⟩ := h₂
  exact ⟨s, t, by simp [← hs, ← ht]⟩

theorem infix_span_left {n₁ p : List Char} (x rest : List Char) (h₁ : n₁ <:+ p) :
    n₁ ++ x <:+: p ++ (x ++ rest) := by
  obtain ⟨s, hs⟩ := h₁
  exact ⟨s, rest, by simp [← hs]⟩

theorem eventBlock_shows_class (rt : Runtime) (event : NetworkEvent) :
    containsText (eventBlock rt event) ("<div class=\"event " ++ event.eventType ++ "\">") := by
  unfold containsText
  simp only [eventBlock, String.data_append, List.append_assoc]
  repeat (first | exact infix_span _ _ (by decide) (by decide) | apply infix_append_skip)

theorem eventBlock_shows_type (rt : Runtime) (event : NetworkEvent) :
    containsText (eventBlock rt event) ("\">" ++ event.eventType ++ "</span>") := by
  unfold containsText
  simp only [eventBlock, String.data_append, List.append_assoc]
  repeat (first | exact infix_span _ _ (by decide) (by decide) | apply infix_append_skip)

theorem eventBlock_shows_time (rt : Runtime) (event : NetworkEvent) :
    containsText (eventBlock rt event)
      ("<span class=\"event-time\">" ++ formatTime rt event.timestamp ++ "</span>") := by
  unfold containsText
  simp only [eventBlock, String.data_append, List.append_assoc]
  repeat (first | exact infix_span _ _ (by decide) (by decide) | apply infix_append_skip)

theorem eventBlock_shows_ip (rt : Runtime) (event : NetworkEvent) :
    containsText (eventBlock rt event) ("<strong>IP:</strong> " ++ event.ipAddress ++ "\n") := by
  unfold containsText
  simp only [eventBlock, String.data_append, List.append_assoc]
  repeat (first | exact infix_span _ _ (by decide) (by decide) | apply infix_append_skip)

theorem eventBlock_shows_mac (rt : Runtime) (event : NetworkEvent) :
    containsText (eventBlock rt event) ("<strong>MAC:</strong> " ++ event.macAddress ++ "\n") := by
  unfold containsText
  simp only [eventBlock, String.data_append, List.append_assoc]
  repeat (first | exact infix_span _ _ (by decide) (by decide) | apply infix_append_skip)

theorem eventBlock_shows_node (rt : Runtime) (event : NetworkEvent) :
    containsText (eventBlock rt event)
      ("<strong>Node:</strong> " ++ event.recordedBy ++ "\n") := by
  unfold containsText
  simp only [eventBlock, String.data_append, List.append_assoc]
  repeat (first | exact infix_span _ _ (by decide) (by decide) | apply infix_append_skip)

theorem eventBlock_shows_message (rt : Runtime) (event : NetworkEvent) :
    containsText (eventBlock rt event)
      ("<div class=\"event-message\">" ++ event.message ++ "</div>") := by
  unfold containsText
  simp only [eventBlock, String.data_append, List.append_assoc]
  repeat (first | exact infix_span _ _ (by decide) (by decide) | apply infix_append_skip)

theorem eventBlock_shows_previousMAC (rt : Runtime) (event : NetworkEvent)
    (h : truthy event.previousMAC = true) :
    containsText (eventBlock rt event)
      ("<strong>Previous MAC:</strong> " ++ fieldText event.previousMAC ++ "\n") := by
  have hblock : ("<strong>Previous MAC:</strong> " ++ fieldText event.previousMAC ++ "\n").data <:+:
      (previousMACBlock event).data := by
    simp only [previousMACBlock, h, if_true, String.data_append, List.append_assoc]
    repeat (first | exact infix_span _ _ (by decide) (by decide) | apply infix_append_skip)
  unfold containsText
  simp only [eventBlock, String.data_append, List.append_assoc] at hblock ⊢
  repeat (first | exact infix_append_here _ hblock | apply infix_append_skip)

theorem eventBlock_shows_hostname (rt : Runtime) (event : NetworkEvent)
    (h : truthy event.hostname = true) :
    containsText (eventBlock rt event)
      ("<strong>Hostname:</strong> " ++ fieldText event.hostname ++ "\n") := by
  have hblock : ("<strong>Hostname:</strong> " ++ fieldText event.hostname ++ "\n").data <:+:
      (hostnameBlock event).data := by
    simp only [hostnameBlock, h, if_true, String.data_append, List.append_assoc]
    repeat (first | exact infix_span _ _ (by decide) (by decide) | apply infix_append_skip)
  unfold containsText
  simp only [eventBlock, String.data_append, List.append_assoc] at hblock ⊢
  repeat (first | exact infix_append_here _ hblock | apply infix_append_skip)

set_option maxRecDepth 100000 in
theorem eventBlock_sampleSpoof (rt : Runtime) :
    eventBlock rt NetworkEvent.sampleSpoof =
      "\n" ++
      "                        <div class=\"event SPOOFING\">\n" ++
      "                            <div class=\"event-header\">\n" ++
      "                                <span class=\"event-type SPOOFING\">SPOOFING</span>\n" ++
      "                                <span class=\"event-time\">" ++
      formatTime rt (.text "2024-05-01T10:00:00Z") ++
      "</span>\n" ++
      "                            </div>\n" ++
      "                            <div class=\"event-details\">\n" ++
      "                                <div class=\"event-detail\">\n" ++
      "                                    <strong>IP:</strong> 10.0.0.7\n" ++
      "                                </div>\n" ++
      "                                <div class=\"event-detail\">\n" ++
      "                                    <strong>MAC:</strong> 66:77:88:99:AA:BB\n" ++
      "                                </div>\n" ++
      "                                \n" ++
      "                                <div class=\"event-detail\">\n" ++
      "                                    <strong>Previous MAC:</strong> AA:BB:CC:DD:EE:FF\n" ++
      "                                </div>\n" ++
      "                                \n" ++
      "                                <div class=\"event-detail\">\n" ++
      "                                    <strong>Node:</strong> node-b\n" ++
      "                                </div>\n" ++
      "                                \n" ++
      "                                <div class=\"event-detail\">\n" ++
      "                                    <strong>Hostname:</strong> printer\n" ++
      "                                </div>\n" ++
      "                                \n" ++
      "                            </div>\n" ++
      "                            <div class=\"event-message\">MAC changed</div>\n" ++
      "                        </div>\n" ++
      "                    " := by
  have hp : truthy NetworkEvent.sampleSpoof.previousMAC = true := by decide
  have hh : truthy NetworkEvent.sampleSpoof.hostname = true := by decide
  apply String.ext
  simp only [eventBlock, previousMACBlock, hostnameBlock, hp, hh, if_true, String.data_append,
    List.append_assoc]
  rfl

set_option maxRecDepth 100000 in
theorem eventBlock_sampleNew (rt : Runtime) :
    eventBlock rt NetworkEvent.sampleNew =
      "\n" ++
      "                        <div class=\"event NEW_DEVICE\">\n" ++
      "                            <div class=\"event-header\">\n" ++
      "                                <span class=\"event-type NEW_DEVICE\">NEW_DEVICE</span>\n" ++
      "                                <span class=\"event-time\">" ++
      formatTime rt (.epoch 0) ++
      "</span>\n" ++
      "                            </div>\n" ++
      "                            <div class=\"event-details\">\n" ++
      "                                <div class=\"event-detail\">\n" ++
      "                                    <strong>IP:</strong> 10.0.0.7\n" ++
      "                                </div>\n" ++
      "                                <div class=\"event-detail\">\n" ++
      "                                    <strong>MAC:</strong> 00:11:22:33:44:55\n" ++
      "                                </div>\n" ++
      "                                \n" ++
      "                                <div class=\"event-detail\">\n" ++
      "                                    <strong>Node:</strong> node-a\n" ++
      "                                </div>\n" ++
      "                                \n" ++
      "                            </div>\n" ++
      "                            <div class=\"event-message\">first sighting</div>\n" ++
      "                        </div>\n" ++
      "                    " := by
  have hp : truthy NetworkEvent.sampleNew.previousMAC = false := by decide
  have hh : truthy NetworkEvent.sampleNew.hostname = false := by decide
  apply String.ext
  simp only [eventBlock, previousMACBlock, hostnameBlock, hp, hh, Bool.false_eq_true, if_false,
    String.data_append, List.append_assoc]
  rfl

set_option maxRecDepth 100000 in
/-- C1. For every non-empty sequence of events returned by `/api/events`,
`loadEvents` sets the events-list region to the concatenation of exactly one
rendered block per event, in the server-given order, each block at the place of
its event and showing the fields of its event (with the `previousMAC` and
`hostname` sub-blocks when these are truthy); so for all non-empty lists `a` and
`b` the region for `a ++ b` is the region for `a` followed by the region for
`b`. The regions for `sampleNew` and for `sampleSpoof` are spelled out. -/
theorem loadEvents_renders_in_order (rt : Runtime) (w : World) (a b : List NetworkEvent)
    (ha : a ≠ []) (hb : b ≠ []) :
    (deliver rt (.events (.body a)) (loadEvents w)).dom.eventsList =
      String.join (a.map (eventBlock rt)) ∧
    (a.map (eventBlock rt)).length = a.length ∧
    (deliver rt (.events (.body (a ++ b))) (loadEvents w)).dom.eventsList =
      (deliver rt (.events (.body a)) (loadEvents w)).dom.eventsList ++
        (deliver rt (.events (.body b)) (loadEvents w)).dom.eventsList ∧
    (∀ (pre : List NetworkEvent) (event : NetworkEvent) (post : List NetworkEvent),
      a = pre ++ event :: post →
      (deliver rt (.events (.body a)) (loadEvents w)).dom.eventsList =
        String.join (pre.map (eventBlock rt)) ++ eventBlock rt event ++
          String.join (post.map (eventBlock rt))) ∧
    (∀ event ∈ a,
      containsText (deliver rt (.events (.body a)) (loadEvents w)).dom.eventsList
        (eventBlock rt event) ∧
      containsText (eventBlock rt event) ("<div class=\"event " ++ event.eventType ++ "\">") ∧
      containsText (eventBlock rt event) ("\">" ++ event.eventType ++ "</span>") ∧
      containsText (eventBlock rt event)
        ("<span class=\"event-time\">" ++ formatTime rt event.timestamp ++ "</span>") ∧
      containsText (eventBlock rt event) ("<strong>IP:</strong> " ++ event.ipAddress ++ "\n") ∧
      containsText (eventBlock rt event) ("<strong>MAC:</strong> " ++ event.macAddress ++ "\n") ∧
      containsText (eventBlock rt event)
        ("<strong>Node:</strong> " ++ event.recordedBy ++ "\n") ∧
      containsText (eventBlock rt event)
        ("<div class=\"event-message\">" ++ event.message ++ "</div>") ∧
      (truthy event.previousMAC = true →
        containsText (eventBlock rt event)
          ("<strong>Previous MAC:</strong> " ++ fieldText event.previousMAC ++ "\n")) ∧
      (truthy event.hostname = true →
        containsText (eventBlock rt event)
          ("<strong>Hostname:</strong> " ++ fieldText event.hostname ++ "\n"))) ∧
    (deliver rt (.events (.body [NetworkEvent.sampleNew])) (loadEvents w)).dom.eventsList =
      "\n" ++
      "                        <div class=\"event NEW_DEVICE\">\n" ++
      "                            <div class=\"event-header\">\n" ++
      "                                <span class=\"event-type NEW_DEVICE\">NEW_DEVICE</span>\n" ++
      "                                <span class=\"event-time\">" ++
      formatTime rt (.epoch 0) ++
      "</span>\n" ++
      "                            </div>\n" ++
      "                            <div class=\"event-details\">\n" ++
      "                                <div class=\"event-detail\">\n" ++
      "                                    <strong>IP:</strong> 10.0.0.7\n" ++
      "                                </div>\n" ++
      "                                <div class=\"event-detail\">\n" ++
      "                                    <strong>MAC:</strong> 00:11:22:33:44:55\n" ++
      "                                </div>\n" ++
      "                                \n" ++
      "                                <div class=\"event-detail\">\n" ++
      "                                    <strong>Node:</strong> node-a\n" ++
      "                                </div>\n" ++
      "                                \n" ++
      "                            </div>\n" ++
      "                            <div class=\"event-message\">first sighting</div>\n" ++
      "                        </div>\n" ++
      "                    " ∧
    (deliver rt (.events (.body [NetworkEvent.sampleSpoof])) (loadEvents w)).dom.eventsList =
      "\n" ++
      "                        <div class=\"event SPOOFING\">\n" ++
      "                            <div class=\"event-header\">\n" ++
      "                                <span class=\"event-type SPOOFING\">SPOOFING</span>\n" ++
      "                                <span class=\"event-time\">" ++
      formatTime rt (.text "2024-05-01T10:00:00Z") ++
      "</span>\n" ++
      "                            </div>\n" ++
      "                            <div class=\"event-details\">\n" ++
      "                                <div class=\"event-detail\">\n" ++
      "                                    <strong>IP:</strong> 10.0.0.7\n" ++
      "                                </div>\n" ++
      "                                <div class=\"event-detail\">\n" ++
      "                                    <strong>MAC:</strong> 66:77:88:99:AA:BB\n" ++
      "                                </div>\n" ++
      "                                \n" ++
      "                                <div class=\"event-detail\">\n" ++
      "                                    <strong>Previous MAC:</strong> AA:BB:CC:DD:EE:FF\n" ++
      "                                </div>\n" ++
      "                                \n" ++
      "                                <div class=\"event-detail\">\n" ++
      "                                    <strong>Node:</strong> node-b\n" ++
      "                                </div>\n" ++
      "                                \n" ++
      "                                <div class=\"event-detail\">\n" ++
      "                                    <strong>Hostname:</strong> printer\n" ++
      "                                </div>\n" ++
      "                                \n" ++
      "                            </div>\n" ++
      "                            <div class=\"event-message\">MAC changed</div>\n" ++
      "                        </div>\n" ++
      "                    " := by
  have hab : a ++ b ≠ [] := by simp [ha]
  have hone : ∀ event : NetworkEvent,
      (deliver rt (.events (.body [event])) (loadEvents w)).dom.eventsList =
        eventBlock rt event := by
    intro event
    rw [events_region, eventsMarkup_of_ne_nil _ _ (by simp)]
    exact join_singleton _
  refine ⟨?_, by simp, ?_, ?_, ?_, ?_, ?_⟩
  · rw [events_region, eventsMarkup_of_ne_nil rt a ha]
  · rw [events_region, events_region, events_region, eventsMarkup_of_ne_nil rt a ha,
      eventsMarkup_of_ne_nil rt b hb, eventsMarkup_of_ne_nil rt _ hab, List.map_append,
      join_append]
  · intro pre event post h
    rw [events_region, eventsMarkup_of_ne_nil rt a ha, h, join_at]
  · intro event hmem
    refine ⟨?_, eventBlock_shows_class rt event, eventBlock_shows_type rt event,
      eventBlock_shows_time rt event, eventBlock_shows_ip rt event,
      eventBlock_shows_mac rt event, eventBlock_shows_node rt event,
      eventBlock_shows_message rt event, eventBlock_shows_previousMAC rt event,
      eventBlock_shows_hostname rt event⟩
    rw [events_region, eventsMarkup_of_ne_nil rt a ha]
    exact infix_join_of_mem (eventBlock rt) a event hmem
  · rw [hone]
    exact eventBlock_sampleNew rt
  · rw [hone]
    exact eventBlock_sampleSpoof rt

/-- Witness of C1: the one-event lists of `sampleNew` and of `sampleSpoof`. -/
theorem loadEvents_renders_in_order_witness :
    [NetworkEvent.sampleNew] ≠ [] ∧ [NetworkEvent.sampleSpoof] ≠ [] ∧
    (deliver Runtime.sample (.events (.body ([NetworkEvent.sampleNew] ++ [NetworkEvent.sampleSpoof])))
        (loadEvents World.blank)).dom.eventsList =
      (deliver Runtime.sample (.events (.body [NetworkEvent.sampleNew]))
          (loadEvents World.blank)).dom.eventsList ++
        (deliver Runtime.sample (.events (.body [NetworkEvent.sampleSpoof]))
          (loadEvents World.blank)).dom.eventsList :=
  ⟨by simp, by simp,
    (loadEvents_renders_in_order Runtime.sample World.blank [NetworkEvent.sampleNew]
      [NetworkEvent.sampleSpoof] (by simp) (by simp)).2.2.1⟩

end Dashboard
